import Mathlib

/-!
Verification development for the OpenTapWall backend.

The definitions below are a shallow embedding of the data
layer:

* `BeerRow`, `SettingsRow`, `StoredImageRow` model the persisted rows of
  the `beer`, `displaysettings` and `storedimage` tables (app/models.py).
  Columns whose SQL type is nullable are `Option`; the NOT NULL columns
  `tap_number` and `name` are still modelled as `Option` at row level
  because SQLite enforces NOT NULL only when an INSERT/UPDATE touches the
  column, and the enforcement itself is modelled at commit time.
* `createBeer`, `getBeer`, `getBeers`, `updateBeer`, `deleteBeer` embed
  app/crud.py; `uploadImage` embeds app/routers/beers.py `upload_image`;
  `updateSettings`, `uploadLogo`, `getImage` embed the handlers in
  app/main.py.  Mutating operations return the new database state
  together with an `Except`-style result; an error result leaves the
  state unchanged, mirroring the session rollback performed by the
  framework when a handler raises.
* Binary payloads are lists of byte values; wall-clock timestamps are an
  abstract counter (`AppDb.clock`), since no claim depends on real time.
* Decimal columns (`abv`, `og`, `sg`) are modelled as rationals; no claim
  performs arithmetic on them, only presence and equality.
-/

namespace OpenTap

/-- A persisted row of the `beer` table (class `Beer` in app/models.py). -/
structure BeerRow where
  id : Nat
  tap_number : Option Int
  name : Option String
  style : Option String
  abv : Option Rat
  og : Option Rat
  sg : Option Rat
  ibu : Option Int
  ebc : Option Int
  image_id : Option Nat
deriving DecidableEq, Repr

/-- Create schema `BeerCreate` (app/models.py): all `BeerBase` fields,
`tap_number` and `name` required, no `id` and no `image_id` field. -/
structure BeerCreate where
  tap_number : Int
  name : String
  style : Option String := none
  abv : Option Rat := none
  og : Option Rat := none
  sg : Option Rat := none
  ibu : Option Int := none
  ebc : Option Int := none
deriving DecidableEq, Repr

/-- Patch schema `BeerUpdate` (app/models.py).  Pydantic distinguishes a
field that is absent from the payload from a field explicitly set to
null, so every field is an `Option` (present in the payload?) of an
`Option` (the value, possibly null). -/
structure BeerUpdate where
  tap_number : Option (Option Int) := none
  name : Option (Option String) := none
  style : Option (Option String) := none
  abv : Option (Option Rat) := none
  og : Option (Option Rat) := none
  sg : Option (Option Rat) := none
  ibu : Option (Option Int) := none
  ebc : Option (Option Int) := none
deriving DecidableEq, Repr

/-- A persisted row of the `storedimage` table (app/models.py). -/
structure StoredImageRow where
  id : Nat
  kind : String
  ref_id : Option Nat
  content_type : String
  data : List Nat
  created_at : Nat
deriving DecidableEq, Repr

/-- A persisted row of the `displaysettings` table as the application
model sees it (class `DisplaySettings` in app/models.py: id, title,
logo_image_id). -/
structure SettingsRow where
  id : Nat
  title : Option String
  logo_image_id : Option Nat
deriving DecidableEq, Repr

/-- Patch schema `DisplaySettingsUpdate` (app/models.py): title only. -/
structure DisplaySettingsUpdate where
  title : Option (Option String) := none
deriving DecidableEq, Repr

/-- Default title of `DisplaySettings` in app/models.py (note the U+2019
typographic apostrophe in the source). -/
def modelDefaultTitle : String := "What’s on Tap"

/-- The application database state: the three tables plus the id
sequences and an abstract clock for `created_at`. -/
structure AppDb where
  beers : List BeerRow
  images : List StoredImageRow
  settings : List SettingsRow
  nextBeerId : Nat
  nextImageId : Nat
  clock : Nat
deriving DecidableEq, Repr

/-- The empty database (fresh file, before any operation). -/
def emptyAppDb : AppDb :=
  { beers := [], images := [], settings := [],
    nextBeerId := 1, nextImageId := 1, clock := 0 }

/-- Errors surfaced by the handlers: 404, 400, 413, and the storage-layer
NOT NULL violation (surfaced as a 500 by the framework). -/
inductive ApiError where
  | notFound
  | invalidInput
  | payloadTooLarge
  | integrityError
deriving DecidableEq, Repr

/-- The Python `str.startswith` method: character-level prefix test (embedded over
the character list so that it evaluates in the kernel). -/
def startsWith (s pre : String) : Bool := pre.data.isPrefixOf s.data

/-- `session.get(Beer, beer_id)`: primary-key lookup. -/
def findBeer (db : AppDb) (beerId : Nat) : Option BeerRow :=
  db.beers.find? (fun b => b.id == beerId)

/-- `session.get(StoredImage, image_id)`. -/
def findImage (db : AppDb) (imageId : Nat) : Option StoredImageRow :=
  db.images.find? (fun i => i.id == imageId)

/-- `session.get(DisplaySettings, key)`. -/
def findSettings (db : AppDb) (key : Nat) : Option SettingsRow :=
  db.settings.find? (fun s => s.id == key)

/-- `crud.get_beer`: fetch by id or 404. -/
def getBeer (db : AppDb) (beerId : Nat) : Except ApiError BeerRow :=
  match findBeer db beerId with
  | none => .error .notFound
  | some b => .ok b

/-- `crud.create_beer`: build a `Beer` from the validated create schema
(`Beer(**beer_in.model_dump())`), let storage assign the id, commit. -/
def createBeer (db : AppDb) (c : BeerCreate) : AppDb × BeerRow :=
  let b : BeerRow :=
    { id := db.nextBeerId, tap_number := some c.tap_number,
      name := some c.name, style := c.style, abv := c.abv, og := c.og,
      sg := c.sg, ibu := c.ibu, ebc := c.ebc, image_id := none }
  ({ db with beers := db.beers ++ [b], nextBeerId := db.nextBeerId + 1 }, b)

/-- The per-field assignment loop of `crud.update_beer`:
`for key, value in beer_in.model_dump(exclude_unset=True): setattr`.
A field present in the payload overwrites the attribute (possibly with
null); an absent field is untouched. -/
def applyUpdate (b : BeerRow) (u : BeerUpdate) : BeerRow :=
  { b with
    tap_number := match u.tap_number with | some v => v | none => b.tap_number
    name := match u.name with | some v => v | none => b.name
    style := match u.style with | some v => v | none => b.style
    abv := match u.abv with | some v => v | none => b.abv
    og := match u.og with | some v => v | none => b.og
    sg := match u.sg with | some v => v | none => b.sg
    ibu := match u.ibu with | some v => v | none => b.ibu
    ebc := match u.ebc with | some v => v | none => b.ebc }

/-- The commit-time NOT NULL check: `tap_number` and `name` are NOT NULL
columns (declared `int` / `str` in `BeerBase`), so an UPDATE that sets
one of them to NULL fails with an integrity error.  The storage layer
only writes columns whose value actually changed. -/
def violatesNotNull (b : BeerRow) (u : BeerUpdate) : Bool :=
  (u.tap_number == some none && !(b.tap_number == none)) ||
  (u.name == some none && !(b.name == none))

/-- `crud.update_beer`: 404 via `get_beer`, then apply the explicitly
present payload fields, then commit (which can fail the NOT NULL check,
rolling the transaction back). -/
def updateBeer (db : AppDb) (beerId : Nat) (u : BeerUpdate) :
    AppDb × Except ApiError BeerRow :=
  match findBeer db beerId with
  | none => (db, .error .notFound)
  | some b =>
    if violatesNotNull b u then (db, .error .integrityError)
    else
      let b2 := applyUpdate b u
      ({ db with beers := db.beers.map (fun x => if x.id == beerId then b2 else x) },
       .ok b2)

/-- `crud.delete_beer`: 404 via `get_beer`, then delete the row. -/
def deleteBeer (db : AppDb) (beerId : Nat) : AppDb × Except ApiError Unit :=
  match findBeer db beerId with
  | none => (db, .error .notFound)
  | some _ =>
    ({ db with beers := db.beers.filter (fun x => !(x.id == beerId)) }, .ok ())

/-- The ORDER BY key of `crud.get_beers`: ascending `tap_number`, with
SQL NULLs ordered first (SQLite default). -/
def tapLe (a b : BeerRow) : Bool :=
  match a.tap_number, b.tap_number with
  | none, _ => true
  | some _, none => false
  | some x, some y => x ≤ y

/-- `crud.get_beers`: `select(Beer).order_by(Beer.tap_number).offset(skip).limit(limit)`. -/
def getBeers (db : AppDb) (skip limit : Nat) : List BeerRow :=
  ((db.beers.mergeSort tapLe).drop skip).take limit

/-- `upload_image` in app/routers/beers.py: content-type check (400),
size check (413), owner lookup (404), then insert a new `StoredImage`
row, flush to obtain its id, repoint `beer.image_id`, commit. -/
def uploadImage (db : AppDb) (beerId : Nat) (contentType : String)
    (data : List Nat) : AppDb × Except ApiError BeerRow :=
  if !(startsWith contentType "image/") then (db, .error .invalidInput)
  else if data.length > 1000000 then (db, .error .payloadTooLarge)
  else
    match findBeer db beerId with
    | none => (db, .error .notFound)
    | some b =>
      let img : StoredImageRow :=
        { id := db.nextImageId, kind := "beer", ref_id := some b.id,
          content_type := contentType, data := data, created_at := db.clock }
      let b2 := { b with image_id := some img.id }
      ({ db with
          images := db.images ++ [img],
          beers := db.beers.map (fun x => if x.id == beerId then b2 else x),
          nextImageId := db.nextImageId + 1,
          clock := db.clock + 1 },
       .ok b2)

/-- `get_image` in app/main.py: fetch a stored image by id or 404; the
response carries the bytes and MIME type of the row. -/
def getImage (db : AppDb) (imageId : Nat) : Except ApiError (String × List Nat) :=
  match findImage db imageId with
  | none => .error .notFound
  | some img => .ok (img.content_type, img.data)

/-- A fresh `DisplaySettings()` object as constructed by the handlers in
app/main.py: id defaults to the singleton key 1, title to the model
default, logo reference absent. -/
def freshSettings : SettingsRow :=
  { id := 1, title := some modelDefaultTitle, logo_image_id := none }

/-- `update_settings` in app/main.py: get-or-create the singleton row,
apply the explicitly present payload fields, commit.  `title` is a NOT
NULL column, so a payload explicitly nulling it fails at commit and the
whole transaction (including a just-flushed insert) is rolled back. -/
def updateSettings (db : AppDb) (u : DisplaySettingsUpdate) :
    AppDb × Except ApiError SettingsRow :=
  match findSettings db 1 with
  | some s =>
    if u.title == some none && !(s.title == none) then (db, .error .integrityError)
    else
      let s2 := { s with title := match u.title with | some v => v | none => s.title }
      ({ db with settings := db.settings.map (fun x => if x.id == 1 then s2 else x) },
       .ok s2)
  | none =>
    let s := freshSettings
    if u.title == some none && !(s.title == none) then (db, .error .integrityError)
    else
      let s2 := { s with title := match u.title with | some v => v | none => s.title }
      ({ db with settings := db.settings ++ [s2] }, .ok s2)

/-- `upload_logo` in app/main.py: content-type check (400), size check
(413), get-or-create the singleton settings row, insert the new
`StoredImage` row with kind logo, flush, repoint `logo_image_id`,
commit. -/
def uploadLogo (db : AppDb) (contentType : String) (data : List Nat) :
    AppDb × Except ApiError SettingsRow :=
  if !(startsWith contentType "image/") then (db, .error .invalidInput)
  else if data.length > 1000000 then (db, .error .payloadTooLarge)
  else
    let img : StoredImageRow :=
      { id := db.nextImageId, kind := "logo", ref_id := none,
        content_type := contentType, data := data, created_at := db.clock }
    match findSettings db 1 with
    | some s =>
      let s2 := { s with logo_image_id := some img.id }
      ({ db with
          images := db.images ++ [img],
          settings := db.settings.map (fun x => if x.id == 1 then s2 else x),
          nextImageId := db.nextImageId + 1,
          clock := db.clock + 1 },
       .ok s2)
    | none =>
      let s2 := { freshSettings with logo_image_id := some img.id }
      ({ db with
          images := db.images ++ [img],
          settings := db.settings ++ [s2],
          nextImageId := db.nextImageId + 1,
          clock := db.clock + 1 },
       .ok s2)

/-! ## Schema model for `_lightweight_migrate` (app/db.py)

The migration works at the SQL level: it inspects `sqlite_master` and
`PRAGMA table_info`, so the model tracks, for each of the three tables,
whether it exists and which columns it has, plus the rows of
`displaysettings` (the only table whose rows the migration touches).
Every primitive statement the routine issues can be made to fail by a
`Fault` flag, modelling an underlying storage error; in addition the
seed INSERT fails for the semantic reason that it names a column the
table does not have.  SQLAlchemy executes each statement immediately
(autocommit for DDL), so a statement that ran before a later failure
keeps its effect. -/

/-- A row of the `displaysettings` table at the SQL level (the table
created by the migration has the four columns id, title, logo,
logo_image_id). -/
structure DsRow where
  id : Nat
  title : Option String
  logo : Option String
  logo_image_id : Option Nat
deriving DecidableEq, Repr

/-- A log record emitted by the migration (`logging.info` /
`logging.warning`). -/
inductive MigLog where
  | info (msg : String)
  | warn (msg : String)
deriving DecidableEq, Repr

/-- Schema-level database state seen by `_lightweight_migrate`:
existence and column list of `beer` and `displaysettings`, existence of
`storedimage`, and the rows of `displaysettings`. -/
structure SchemaDb where
  beerTable : Option (List String)
  dsTable : Option (List String)
  siTable : Bool
  dsRows : List DsRow
deriving DecidableEq, Repr

/-- An entirely empty database file: no tables, no rows. -/
def emptySchemaDb : SchemaDb :=
  { beerTable := none, dsTable := none, siTable := false, dsRows := [] }

/-- Columns of the `beer` table as declared by the SQLModel metadata
(class `Beer`): the legacy `image` column is NOT part of the model. -/
def modelBeerCols : List String :=
  ["tap_number", "name", "style", "abv", "og", "sg", "ibu", "ebc", "id", "image_id"]

/-- Columns of `displaysettings` as declared by the SQLModel metadata
(class `DisplaySettings`): id, title, logo_image_id — and NO `logo`
column. -/
def modelDsCols : List String := ["id", "title", "logo_image_id"]

/-- Columns of the `displaysettings` table as created by the CREATE
TABLE IF NOT EXISTS statement of the migration itself. -/
def migDsCols : List String := ["id", "title", "logo", "logo_image_id"]

/-- `SQLModel.metadata.create_all(engine)`: create every declared table
that does not exist yet, with the columns of the model; existing tables and
all rows are untouched. -/
def createAllFn (s : SchemaDb) : SchemaDb :=
  { s with
    beerTable := some (s.beerTable.getD modelBeerCols)
    dsTable := some (s.dsTable.getD modelDsCols)
    siTable := true }

/-- Fault injection: one flag per SQL statement the migration issues;
`true` means that statement raises a storage error on this run. -/
structure Fault where
  readTables1 : Bool := false
  createAll : Bool := false
  readTables2 : Bool := false
  readBeerCols : Bool := false
  alterImage : Bool := false
  alterImageId : Bool := false
  createDs : Bool := false
  readDsCols : Bool := false
  alterDsCol : Bool := false
  selectRow : Bool := false
  insertRow : Bool := false
  createSi : Bool := false
deriving DecidableEq, Repr

/-- The fault-free run (ordinary startup). -/
def noFault : Fault := {}

/-- Intermediate migration state: schema plus accumulated log. -/
abbrev MigState := SchemaDb × List MigLog

/-- The title literal of the seed INSERT in app/db.py — a mojibake
rendering of the model default (its UTF-8 bytes read back as cp1252). -/
def seedTitle : String := "Whatâ€™s on Tap"

/-- The row the seed INSERT writes:
VALUES (1, seed title, NULL, NULL). -/
def seedRow : DsRow :=
  { id := 1, title := some seedTitle, logo := none, logo_image_id := none }

/-- Columns named by the seed INSERT statement; the INSERT errors if the
table lacks any of them. -/
def insertCols : List String := ["id", "title", "logo", "logo_image_id"]

/-- Can the seed INSERT succeed against this schema?  SQLite accepts the
INSERT exactly when the table has every column the statement names. -/
def insertable (s : SchemaDb) : Bool :=
  insertCols.all (fun c => (s.dsTable.getD []).contains c)

/-- Is there a `displaysettings` row with id 1? -/
def hasRow1 (s : SchemaDb) : Bool := s.dsRows.any (fun r => r.id == 1)

/-- Steps up to and including the table-existence handling: read
`sqlite_master`; if `beer` is missing, log, run `create_all` and re-read
the table list.  A failing statement here is uncaught and aborts the
run. -/
def stepTables (f : Fault) (m : MigState) : Except MigState MigState :=
  let (s, l) := m
  if f.readTables1 then
    .error (s, l ++ [.warn "Lightweight migration skipped or failed"])
  else if s.beerTable.isNone then
    let l1 := l ++ [.info "beer table missing; running create_all again"]
    if f.createAll then
      .error (s, l1 ++ [.warn "Lightweight migration skipped or failed"])
    else
      let s1 := createAllFn s
      if f.readTables2 then
        .error (s1, l1 ++ [.warn "Lightweight migration skipped or failed"])
      else .ok (s1, l1)
  else .ok (s, l)

/-- The guarded ALTER adding the legacy `image` column: skipped when the
original column read found it, logged-and-skipped on failure (its
exception is caught), applied otherwise. -/
def alterImageStep (f : Fault) (cols : List String) (m : MigState) : MigState :=
  if cols.contains "image" then m
  else
    let l2 := m.2 ++ [.info "Adding image column to beer"]
    if f.alterImage then (m.1, l2 ++ [.warn "Could not add image column"])
    else ({ m.1 with beerTable := some (cols ++ ["image"]) }, l2)

/-- The guarded ALTER adding `image_id`, same shape; the check uses the
column set read before the first ALTER. -/
def alterImageIdStep (f : Fault) (cols : List String) (m : MigState) : MigState :=
  if cols.contains "image_id" then m
  else
    let l2 := m.2 ++ [.info "Adding image_id column to beer"]
    if f.alterImageId then (m.1, l2 ++ [.warn "Could not add image_id column"])
    else ({ m.1 with beerTable := m.1.beerTable.map (fun c => c ++ ["image_id"]) }, l2)

/-- Beer-column steps: when the `beer` table exists, read its columns
once, then add `image` and `image_id` if the read found them missing.
Each ALTER is wrapped in its own try/except: a failure is logged as a
warning and the run continues. -/
def stepBeerCols (f : Fault) (m : MigState) : Except MigState MigState :=
  let (s, l) := m
  match s.beerTable with
  | none => .ok (s, l)
  | some cols =>
    if f.readBeerCols then
      .error (s, l ++ [.warn "Lightweight migration skipped or failed"])
    else .ok (alterImageIdStep f cols (alterImageStep f cols (s, l)))

/-- Displaysettings steps: CREATE TABLE IF NOT EXISTS (with the four
legacy columns), read the columns, add `logo_image_id` if missing (the
ALTER is caught: warn and continue). -/
def stepDs (f : Fault) (m : MigState) : Except MigState MigState :=
  let (s, l) := m
  if f.createDs then
    .error (s, l ++ [.warn "Lightweight migration skipped or failed"])
  else
    let s1 := if s.dsTable.isSome then s else { s with dsTable := some migDsCols }
    if f.readDsCols then
      .error (s1, l ++ [.warn "Lightweight migration skipped or failed"])
    else
      let cols := s1.dsTable.getD []
      if cols.contains "logo_image_id" then .ok (s1, l)
      else
        let l1 := l ++ [.info "Adding logo_image_id column to displaysettings"]
        if f.alterDsCol then .ok (s1, l1 ++ [.warn "Could not add logo_image_id"])
        else .ok ({ s1 with dsTable := some (cols ++ ["logo_image_id"]) }, l1)

/-- Singleton-row seeding: SELECT the row with id 1; when absent, INSERT
it.  The INSERT names the columns id, title, logo, logo_image_id, so it
errors when the table lacks one of them; neither statement is wrapped in
an inner try, so a failure aborts the run. -/
def stepSeed (f : Fault) (m : MigState) : Except MigState MigState :=
  let (s, l) := m
  if f.selectRow then
    .error (s, l ++ [.warn "Lightweight migration skipped or failed"])
  else if hasRow1 s then .ok (s, l)
  else if f.insertRow || !(insertable s) then
    .error (s, l ++ [.warn "Lightweight migration skipped or failed"])
  else .ok ({ s with dsRows := s.dsRows ++ [seedRow] }, l)

/-- Final step: CREATE TABLE IF NOT EXISTS storedimage. -/
def stepSi (f : Fault) (m : MigState) : Except MigState MigState :=
  let (s, l) := m
  if f.createSi then
    .error (s, l ++ [.warn "Lightweight migration skipped or failed"])
  else .ok ({ s with siTable := true }, l)

/-- The body of `_lightweight_migrate`, i.e. everything inside the outer
try: the five step groups in source order, each aborting the rest on an
uncaught failure. -/
def migrateBody (f : Fault) (s : SchemaDb) : Except MigState MigState :=
  (((((stepTables f (s, [])).bind (stepBeerCols f)).bind (stepDs f)).bind
      (stepSeed f)).bind (stepSi f))

/-- The outer try/except of `_lightweight_migrate`: a storage error is
swallowed and the run returns with whatever state was achieved. -/
def runCatch (e : Except MigState MigState) : MigState :=
  match e with
  | .ok r => r
  | .error r => r

/-- `_lightweight_migrate`: the body wrapped in the outer
try/except that logs and swallows any storage error, returning with
whatever state was achieved. -/
def lightweightMigrate (f : Fault) (s : SchemaDb) : MigState :=
  runCatch (migrateBody f s)

/-- Does a log contain a warning (i.e. did some statement fail)? -/
def hasWarn (l : List MigLog) : Bool :=
  l.any (fun e => match e with | .warn _ => true | .info _ => false)

/-- A beer-table operation, for stating invariants over arbitrary
operation sequences. -/
inductive BeerOp where
  | create (c : BeerCreate)
  | update (beerId : Nat) (u : BeerUpdate)
  | delete (beerId : Nat)
deriving Repr

/-- Run one operation, keeping the resulting state (errors leave the
state unchanged by construction of the operations). -/
def applyOp (db : AppDb) : BeerOp → AppDb
  | .create c => (createBeer db c).1
  | .update beerId u => (updateBeer db beerId u).1
  | .delete beerId => (deleteBeer db beerId).1

/-- Run a sequence of operations from a starting state. -/
def applyOps (db : AppDb) (ops : List BeerOp) : AppDb :=
  ops.foldl applyOp db

/-- The invariant of claim C6: every persisted beer has its required
columns populated. -/
def beerInvariant (db : AppDb) : Bool :=
  db.beers.all (fun b => b.tap_number.isSome && b.name.isSome)

/-! ## Concrete fixtures used by witnesses and counterexamples -/

/-- A sample beer row (the first seed row of app/main.py). -/
def exBeer : BeerRow :=
  { id := 1, tap_number := some 1, name := some "Pale Ale",
    style := some "APA", abv := some 5, og := none, sg := none,
    ibu := some 35, ebc := some 12, image_id := none }

/-- A one-beer database. -/
def exDb : AppDb :=
  { beers := [exBeer], images := [], settings := [],
    nextBeerId := 2, nextImageId := 1, clock := 0 }

/-- A patch that only sets `style` (the example from the spec). -/
def exPatch : BeerUpdate := { style := some (some "Lager") }

/-- A patch that explicitly nulls the required `name` field. -/
def nullNamePatch : BeerUpdate := { name := some none }

/-- The empty beer patch: no field present in the payload. -/
def emptyBeerUpdate : BeerUpdate := {}

/-- The empty settings patch. -/
def emptySettingsUpdate : DisplaySettingsUpdate := {}

/-- An oversized upload payload (1,000,001 bytes). -/
def bigData : List Nat := List.replicate 1000001 0

/-- The database after one image upload to the sample beer. -/
def exDbUp1 : AppDb := (uploadImage exDb 1 "image/png" [9]).1

/-- The database after a second image upload to the same beer. -/
def exDbUp2 : AppDb := (uploadImage exDbUp1 1 "image/jpeg" [8]).1

/-- The sample beer after the first upload repointed it. -/
def exBeerUp1 : BeerRow := { exBeer with image_id := some 1 }

/-- The sample beer after the second upload repointed it. -/
def exBeerUp2 : BeerRow := { exBeer with image_id := some 2 }

/-- A database file from a pre-blob-storage version of the application:
`beer` lacks `image_id`, `displaysettings` was created by an old run of
the migration (it has the `logo` column but not `logo_image_id`), no
`storedimage` table, and no settings row. -/
def legacySchemaDb : SchemaDb :=
  { beerTable := some ["id", "tap_number", "name", "style", "abv", "og",
      "sg", "ibu", "ebc", "image"],
    dsTable := some ["id", "title", "logo"], siTable := false, dsRows := [] }

/-- A legacy-style database used for the C4 counterexample: `beer` lacks
both `image` and `image_id`, `displaysettings` lacks `logo_image_id`,
no settings row, no `storedimage` table. -/
def alterFaultDb : SchemaDb :=
  { beerTable := some ["id", "tap_number", "name", "style", "abv", "og",
      "sg", "ibu", "ebc"],
    dsTable := some ["id", "title", "logo"], siTable := false, dsRows := [] }

/-- A schema state whose settings row already exists (seed step skipped). -/
def rowSchemaDb : SchemaDb :=
  { beerTable := some ["id", "tap_number", "name", "style", "abv", "og",
      "sg", "ibu", "ebc"],
    dsTable := some migDsCols, siTable := false, dsRows := [seedRow] }

/-- Fault pattern: only the seed INSERT fails. -/
def onlyInsertFault : Fault := { insertRow := true }

/-- Fault pattern: only the ALTER adding beer.image fails. -/
def onlyAlterImageFault : Fault := { alterImage := true }

/-! ## Stability predicates for the migration

These describe the two possible shapes of a post-migration state of a
fault-free run: either everything was ensured (including the singleton
row), or the run was aborted by the seed INSERT failing because the
`displaysettings` table lacks a column the INSERT names. -/

/-- The `beer` table exists and has both added columns. -/
def goodBeer (s : SchemaDb) : Prop :=
  ∃ c, s.beerTable = some c ∧ "image" ∈ c ∧ "image_id" ∈ c

/-- The `displaysettings` table exists and has `logo_image_id`. -/
def goodDs (s : SchemaDb) : Prop :=
  ∃ c, s.dsTable = some c ∧ "logo_image_id" ∈ c

/-- Fully migrated state: everything ensured, row seeded, image table
present. -/
def StableOk (s : SchemaDb) : Prop :=
  goodBeer s ∧ goodDs s ∧ hasRow1 s = true ∧ s.siTable = true

/-- Stuck state: columns ensured but no singleton row and the seed
INSERT cannot succeed (so every further run aborts at the same point). -/
def StableErr (s : SchemaDb) : Prop :=
  goodBeer s ∧ goodDs s ∧ hasRow1 s = false ∧ insertable s = false

/-- Post-condition of a fault-free migration run: either fully migrated,
or stuck at the impossible seed INSERT with the failure logged. -/
def MigPost (m : MigState) : Prop :=
  StableOk m.1 ∨ (StableErr m.1 ∧ hasWarn m.2 = true)

/-! ## Helper lemmas -/

/-- The ORDER BY relation is transitive. -/
theorem tapLe_trans : ∀ a b c : BeerRow,
    tapLe a b = true → tapLe b c = true → tapLe a c = true := by
  intro a b c
  unfold tapLe
  cases a.tap_number <;> cases b.tap_number <;> cases c.tap_number <;>
    simp <;> omega

/-- The ORDER BY relation is total. -/
theorem tapLe_total : ∀ a b : BeerRow, (tapLe a b || tapLe b a) = true := by
  intro a b
  unfold tapLe
  cases a.tap_number <;> cases b.tap_number <;> simp <;> omega

/-- A commit that passes the NOT NULL check keeps `tap_number` and
`name` populated. -/
theorem applyUpdate_required (b : BeerRow) (u : BeerUpdate)
    (ht : b.tap_number.isSome = true) (hn : b.name.isSome = true)
    (hv : violatesNotNull b u = false) :
    (applyUpdate b u).tap_number.isSome = true ∧
      (applyUpdate b u).name.isSome = true := by
  unfold violatesNotNull at hv
  simp only [Bool.or_eq_false_iff, Bool.and_eq_false_iff] at hv
  constructor
  · show (applyUpdate b u).tap_number.isSome = true
    unfold applyUpdate
    cases htap : u.tap_number with
    | none => simpa using ht
    | some v =>
      cases v with
      | none =>
        exfalso
        rcases hv.1 with h | h
        · rw [htap] at h; simp at h
        · cases hb : b.tap_number with
          | none => rw [hb] at ht; simp at ht
          | some w => rw [hb] at h; simp at h
      | some x => simp
  · show (applyUpdate b u).name.isSome = true
    unfold applyUpdate
    cases hname : u.name with
    | none => simpa using hn
    | some v =>
      cases v with
      | none =>
        exfalso
        rcases hv.2 with h | h
        · rw [hname] at h; simp at h
        · cases hb : b.name with
          | none => rw [hb] at hn; simp at hn
          | some w => rw [hb] at h; simp at h
      | some x => simp

/-- Every single beer-table operation preserves the required-fields
invariant. -/
theorem beerInvariant_applyOp (db : AppDb) (op : BeerOp)
    (h : beerInvariant db = true) : beerInvariant (applyOp db op) = true := by
  cases op with
  | create c =>
    simp only [applyOp, createBeer, beerInvariant, List.all_append] at *
    simp [h]
  | update beerId u =>
    simp only [applyOp, updateBeer]
    cases hf : findBeer db beerId with
    | none => simpa using h
    | some b =>
      by_cases hv : violatesNotNull b u = true
      · simp only [hf, hv, if_true]
        simpa using h
      · rw [Bool.not_eq_true] at hv
        simp only [hf, hv, Bool.false_eq_true, if_false]
        have hb : b ∈ db.beers := List.mem_of_find?_eq_some hf
        have hbr := List.all_eq_true.mp h b hb
        simp only [Bool.and_eq_true] at hbr
        have hup := applyUpdate_required b u hbr.1 hbr.2 hv
        rw [beerInvariant, List.all_eq_true]
        intro x hx
        obtain ⟨y, hy, rfl⟩ := List.mem_map.mp hx
        by_cases hid : (y.id == beerId) = true
        · simp only [hid, if_true]
          simp [hup.1, hup.2]
        · rw [Bool.not_eq_true] at hid
          simp only [hid, Bool.false_eq_true, if_false]
          exact List.all_eq_true.mp h y hy
  | delete beerId =>
    simp only [applyOp, deleteBeer]
    cases hf : findBeer db beerId with
    | none => simpa using h
    | some b =>
      rw [beerInvariant, List.all_eq_true]
      intro x hx
      simp only [List.mem_filter] at hx
      exact List.all_eq_true.mp h x hx.1

/-! ## Claims -/

/-- C10: every beer produced by the create operation has a
storage-assigned id (the next value of the id sequence) and no image
reference; the `BeerCreate` schema has no `id` or `image_id` field, so
the caller can choose neither. -/
theorem c10_create_beer_fresh (db : AppDb) (c : BeerCreate) :
    (createBeer db c).2.image_id = none ∧
    (createBeer db c).2.id = db.nextBeerId ∧
    (createBeer db c).2.tap_number = some c.tap_number ∧
    (createBeer db c).2.name = some c.name ∧
    (createBeer db c).1.beers = db.beers ++ [(createBeer db c).2] ∧
    (createBeer db c).1.nextBeerId = db.nextBeerId + 1 :=
  ⟨rfl, rfl, rfl, rfl, rfl, rfl⟩

/-- C5: the beer image upload checks, in order: content type must start
with image/ (else 400), payload at most 1,000,000 bytes (else 413),
owner must exist (else 404); each failure returns with the database
unchanged — no StoredImage row is written and no beer is repointed. -/
theorem c5_upload_image_errors (db : AppDb) (beerId : Nat) (ct : String)
    (data : List Nat) :
    (startsWith ct "image/" = false →
      uploadImage db beerId ct data = (db, .error .invalidInput)) ∧
    (startsWith ct "image/" = true → 1000000 < data.length →
      uploadImage db beerId ct data = (db, .error .payloadTooLarge)) ∧
    (startsWith ct "image/" = true → data.length ≤ 1000000 →
      findBeer db beerId = none →
      uploadImage db beerId ct data = (db, .error .notFound)) := by
  refine ⟨fun h => by simp [uploadImage, h], fun h h2 => by simp [uploadImage, h, h2],
    fun h h2 h3 => ?_⟩
  have h4 : ¬(data.length > 1000000) := by omega
  simp [uploadImage, h, h4, h3]

/-- Witness for C5 at concrete inputs: a text upload, an oversized
upload, and an upload to a missing beer. -/
theorem c5_upload_image_errors_witness :
    uploadImage exDb 1 "text/plain" [0] = (exDb, .error .invalidInput) ∧
    uploadImage exDb 1 "image/png" bigData = (exDb, .error .payloadTooLarge) ∧
    uploadImage exDb 2 "image/png" [0] = (exDb, .error .notFound) := by
  refine ⟨(c5_upload_image_errors exDb 1 "text/plain" [0]).1 (by decide),
    (c5_upload_image_errors exDb 1 "image/png" bigData).2.1 (by decide) ?_,
    (c5_upload_image_errors exDb 2 "image/png" [0]).2.2 (by decide) (by decide) rfl⟩
  unfold bigData
  rw [List.length_replicate]
  norm_num

/-- C8: listing returns the stored beers sorted by ascending tap number
(SQL NULLs first), pages by dropping `skip` of that order and keeping at
most `limit`, returns the whole set when the limit covers it, and yields
the empty list on an empty table. -/
theorem c8_list_beers_sorted (db : AppDb) (skip limit : Nat) :
    List.Perm (db.beers.mergeSort tapLe) db.beers ∧
    List.Pairwise (fun a b => tapLe a b = true) (db.beers.mergeSort tapLe) ∧
    getBeers db skip limit = ((db.beers.mergeSort tapLe).drop skip).take limit ∧
    (getBeers db skip limit).length ≤ limit ∧
    (db.beers.length ≤ limit → List.Perm (getBeers db 0 limit) db.beers) ∧
    (db.beers = [] → getBeers db skip limit = []) := by
  refine ⟨List.mergeSort_perm db.beers tapLe,
    List.sorted_mergeSort tapLe_trans tapLe_total db.beers, rfl, ?_, ?_, ?_⟩
  · rw [getBeers, List.length_take]
    omega
  · intro h
    have hlen : (db.beers.mergeSort tapLe).length = db.beers.length :=
      (List.mergeSort_perm db.beers tapLe).length_eq
    have : getBeers db 0 limit = db.beers.mergeSort tapLe := by
      rw [getBeers, List.drop_zero, List.take_of_length_le (by omega)]
    rw [this]
    exact List.mergeSort_perm db.beers tapLe
  · intro h
    rw [getBeers, h]
    simp

/-- Witness for C8: the empty table gives the empty page, and a
covering limit returns all stored beers. -/
theorem c8_list_beers_sorted_witness :
    getBeers emptyAppDb 0 100 = [] ∧
    List.Perm (getBeers exDb 0 100) exDb.beers :=
  ⟨(c8_list_beers_sorted emptyAppDb 0 100).2.2.2.2.2 rfl,
   (c8_list_beers_sorted exDb 0 100).2.2.2.2.1 (by decide)⟩

/-- C6: after any sequence of create, partial-update and delete
operations, every persisted beer still has `tap_number` and `name`
populated: an update explicitly nulling one of them is rejected by the
NOT NULL constraint and changes nothing. -/
theorem c6_required_fields_invariant (ops : List BeerOp) :
    beerInvariant (applyOps emptyAppDb ops) = true := by
  suffices h : ∀ db, beerInvariant db = true →
      beerInvariant (applyOps db ops) = true from h emptyAppDb rfl
  induction ops with
  | nil => intro db h; exact h
  | cons op rest ih =>
    intro db h
    exact ih (applyOp db op) (beerInvariant_applyOp db op h)

/-- A settings row with id 1 stays findable when it is replaced in
place by a row that still has id 1. -/
theorem findSettings_map_isSome (l : List SettingsRow) (s2 : SettingsRow)
    (h2 : (s2.id == 1) = true)
    (h : (l.find? (fun x => x.id == 1)).isSome = true) :
    ((l.map (fun x => if x.id == 1 then s2 else x)).find?
        (fun x => x.id == 1)).isSome = true := by
  rw [List.find?_isSome] at h ⊢
  obtain ⟨x, hm, hp⟩ := h
  exact ⟨if x.id == 1 then s2 else x, List.mem_map_of_mem _ hm, by simp [hp, h2]⟩

/-- C1 counterexample: the claim demands that a payload explicitly
setting a field to null clears it; but a payload explicitly nulling
`name` hits the NOT NULL constraint at commit: the update fails with an
integrity error and the beer keeps its old name (the database is
returned unchanged), so the field is not cleared. -/
theorem c1_explicit_null_name_counterexample :
    updateBeer exDb 1 nullNamePatch = (exDb, .error .integrityError) ∧
    findBeer exDb 1 = some exBeer ∧
    exBeer.name = some "Pale Ale" :=
  ⟨rfl, rfl, rfl⟩

/-- C1 amended: for payloads that do not explicitly null `tap_number` or
`name`, the partial update succeeds and changes exactly the fields
explicitly present in the payload: each present field takes the payload
value (an explicit null clears a nullable field), each omitted field
keeps its prior value, `id` and `image_id` are never touched, and the
empty payload leaves the row unchanged. -/
theorem c1_partial_update_amended (db : AppDb) (beerId : Nat)
    (u : BeerUpdate) (b : BeerRow) (hfind : findBeer db beerId = some b)
    (hname : u.name ≠ some none) (htap : u.tap_number ≠ some none) :
    updateBeer db beerId u =
      ({ db with
          beers := db.beers.map
              (fun x => if x.id == beerId then applyUpdate b u else x) },
        .ok (applyUpdate b u)) ∧
    (applyUpdate b u).tap_number = u.tap_number.getD b.tap_number ∧
    (applyUpdate b u).name = u.name.getD b.name ∧
    (applyUpdate b u).style = u.style.getD b.style ∧
    (applyUpdate b u).abv = u.abv.getD b.abv ∧
    (applyUpdate b u).og = u.og.getD b.og ∧
    (applyUpdate b u).sg = u.sg.getD b.sg ∧
    (applyUpdate b u).ibu = u.ibu.getD b.ibu ∧
    (applyUpdate b u).ebc = u.ebc.getD b.ebc ∧
    (applyUpdate b u).id = b.id ∧
    (applyUpdate b u).image_id = b.image_id ∧
    applyUpdate b emptyBeerUpdate = b := by
  have hv : violatesNotNull b u = false := by
    have h1 : (u.tap_number == some none) = false := beq_eq_false_iff_ne.mpr htap
    have h2 : (u.name == some none) = false := beq_eq_false_iff_ne.mpr hname
    simp [violatesNotNull, h1, h2]
  refine ⟨by simp [updateBeer, hfind, hv], ?_, ?_, ?_, ?_, ?_, ?_, ?_, ?_,
    rfl, rfl, rfl⟩
  · cases h : u.tap_number <;> simp [applyUpdate, h]
  · cases h : u.name <;> simp [applyUpdate, h]
  · cases h : u.style <;> simp [applyUpdate, h]
  · cases h : u.abv <;> simp [applyUpdate, h]
  · cases h : u.og <;> simp [applyUpdate, h]
  · cases h : u.sg <;> simp [applyUpdate, h]
  · cases h : u.ibu <;> simp [applyUpdate, h]
  · cases h : u.ebc <;> simp [applyUpdate, h]

/-- Witness for the amended C1: patching only `style` succeeds, changes
`style` and nothing else; the empty payload changes nothing. -/
theorem c1_partial_update_amended_witness :
    (updateBeer exDb 1 exPatch).2 = .ok (applyUpdate exBeer exPatch) ∧
    (applyUpdate exBeer exPatch).style = some "Lager" ∧
    (applyUpdate exBeer exPatch).abv = exBeer.abv ∧
    applyUpdate exBeer emptyBeerUpdate = exBeer := by
  have h := c1_partial_update_amended exDb 1 exPatch exBeer rfl
    (by decide) (by decide)
  refine ⟨by rw [h.1], ?_, ?_, h.2.2.2.2.2.2.2.2.2.2.2⟩
  · rw [h.2.2.2.1]
    rfl
  · rw [h.2.2.2.2.1]
    rfl

/-- C9 counterexample: the claim says that whenever the singleton row is
absent as one of the two settings operations runs, the operation creates
it; but a logo upload that fails validation returns before the
get-or-create, leaving the database without any settings row. -/
theorem c9_failed_upload_no_row_counterexample :
    uploadLogo emptyAppDb "text/plain" [0] = (emptyAppDb, .error .invalidInput) ∧
    findSettings emptyAppDb 1 = none :=
  ⟨rfl, rfl⟩

/-- C9 amended: neither settings operation can ever fail with NotFound,
and whenever either operation returns successfully, the returned row has
the singleton key 1 and a row with id 1 exists afterwards (it is created
on the fly when absent).  A validation or constraint failure, however,
returns before the row is created. -/
theorem c9_settings_never_notfound_amended :
    (∀ (db : AppDb) (u : DisplaySettingsUpdate),
      (updateSettings db u).2 ≠ .error .notFound) ∧
    (∀ (db : AppDb) (ct : String) (d : List Nat),
      (uploadLogo db ct d).2 ≠ .error .notFound) ∧
    (∀ (db : AppDb) (u : DisplaySettingsUpdate) (s : SettingsRow),
      (updateSettings db u).2 = .ok s →
      s.id = 1 ∧ (findSettings (updateSettings db u).1 1).isSome = true) ∧
    (∀ (db : AppDb) (ct : String) (d : List Nat) (s : SettingsRow),
      (uploadLogo db ct d).2 = .ok s →
      s.id = 1 ∧ (findSettings (uploadLogo db ct d).1 1).isSome = true) := by
  refine ⟨?_, ?_, ?_, ?_⟩
  · intro db u
    rw [updateSettings]
    cases hf : findSettings db 1 <;> dsimp only [] <;> split <;> simp
  · intro db ct d
    rw [uploadLogo]
    split
    · simp
    · split
      · simp
      · cases hf : findSettings db 1 <;> simp
  · intro db u s hok
    cases hf : findSettings db 1 with
    | none =>
      simp only [updateSettings, hf] at hok ⊢
      by_cases hc : (u.title == some none && !(freshSettings.title == none)) = true
      · rw [if_pos hc] at hok
        exact absurd hok (by simp)
      · rw [if_neg hc] at hok ⊢
        dsimp only [] at hok ⊢
        simp only [Except.ok.injEq] at hok
        subst hok
        refine ⟨rfl, ?_⟩
        rw [findSettings]
        dsimp only []
        rw [List.find?_append]
        rw [findSettings] at hf
        rw [hf]
        simp [freshSettings]
    | some x =>
      have hx : (x.id == 1) = true := by
        rw [findSettings] at hf
        have h2 := List.find?_some hf
        simpa using h2
      simp only [updateSettings, hf] at hok ⊢
      by_cases hc : (u.title == some none && !(x.title == none)) = true
      · rw [if_pos hc] at hok
        exact absurd hok (by simp)
      · rw [if_neg hc] at hok ⊢
        dsimp only [] at hok ⊢
        simp only [Except.ok.injEq] at hok
        subst hok
        refine ⟨by simpa using hx, ?_⟩
        rw [findSettings]
        dsimp only []
        refine findSettings_map_isSome db.settings _ (by simpa using hx) ?_
        rw [findSettings] at hf
        simp [hf]
  · intro db ct d s hok
    by_cases hct : (!startsWith ct "image/") = true
    · rw [uploadLogo, if_pos hct] at hok
      exact absurd hok (by simp)
    · by_cases hlen : d.length > 1000000
      · rw [uploadLogo, if_neg hct, if_pos hlen] at hok
        exact absurd hok (by simp)
      · cases hf : findSettings db 1 with
        | none =>
          simp only [uploadLogo, if_neg hct, if_neg hlen, hf] at hok ⊢
          simp only [Except.ok.injEq] at hok
          subst hok
          refine ⟨rfl, ?_⟩
          rw [findSettings]
          dsimp only []
          rw [List.find?_append]
          rw [findSettings] at hf
          rw [hf]
          simp [freshSettings]
        | some x =>
          have hx : (x.id == 1) = true := by
            rw [findSettings] at hf
            have h2 := List.find?_some hf
            simpa using h2
          simp only [uploadLogo, if_neg hct, if_neg hlen, hf] at hok ⊢
          simp only [Except.ok.injEq] at hok
          subst hok
          refine ⟨by simpa using hx, ?_⟩
          rw [findSettings]
          dsimp only []
          refine findSettings_map_isSome db.settings _ (by simpa using hx) ?_
          rw [findSettings] at hf
          simp [hf]

/-- Witness for the amended C9: an empty patch never reports NotFound,
and a successful logo upload on a database without a settings row leaves
a row with id 1 behind. -/
theorem c9_settings_never_notfound_amended_witness :
    (updateSettings emptyAppDb ({} : DisplaySettingsUpdate)).2 ≠
      .error .notFound ∧
    (findSettings (uploadLogo emptyAppDb "image/png" [1]).1 1).isSome = true := by
  refine ⟨c9_settings_never_notfound_amended.1 emptyAppDb {}, ?_⟩
  exact (c9_settings_never_notfound_amended.2.2.2 emptyAppDb "image/png" [1]
    { id := 1, title := some modelDefaultTitle, logo_image_id := some 1 }
    rfl).2

/-- Bind of a successful step runs the next step. -/
theorem exbind_ok {a : MigState} {f : MigState → Except MigState MigState} :
    (Except.ok a : Except MigState MigState).bind f = f a := rfl

/-- Bind of a failed step aborts the rest of the run. -/
theorem exbind_error {e : MigState} {f : MigState → Except MigState MigState} :
    (Except.error e : Except MigState MigState).bind f = .error e := rfl

/-- The outer catch is transparent for a clean run. -/
theorem runCatch_ok {r : MigState} : runCatch (.ok r) = r := rfl

/-- The outer catch swallows the error of an aborted run. -/
theorem runCatch_error {r : MigState} : runCatch (.error r) = r := rfl

/-- Re-marking `storedimage` as present is a no-op when it already is. -/
theorem setSi_self (s : SchemaDb) (h : s.siTable = true) :
    ({ s with siTable := true } : SchemaDb) = s := by
  cases s
  simp_all

/-- Classification of the seed and storedimage steps of a fault-free
run: they either complete the migration or abort with a logged warning
at the impossible INSERT. -/
theorem seedSi_post (t : SchemaDb) (l : List MigLog)
    (hgb : goodBeer t) (hgd : goodDs t) :
    MigPost (runCatch ((stepSeed noFault (t, l)).bind (stepSi noFault))) := by
  obtain ⟨bc, hbc, hb1, hb2⟩ := hgb
  obtain ⟨dc, hdc, hd1⟩ := hgd
  cases hrow : hasRow1 t with
  | true =>
    left
    have hseed : stepSeed noFault (t, l) = .ok (t, l) := by
      rw [stepSeed]
      simp [noFault, hrow]
    have hsi : stepSi noFault (t, l) = .ok ({ t with siTable := true }, l) := rfl
    rw [hseed, exbind_ok, hsi, runCatch_ok]
    exact ⟨⟨bc, hbc, hb1, hb2⟩, ⟨dc, hdc, hd1⟩, hrow, rfl⟩
  | false =>
    cases hins : insertable t with
    | true =>
      left
      have hseed : stepSeed noFault (t, l) =
          .ok ({ t with dsRows := t.dsRows ++ [seedRow] }, l) := by
        rw [stepSeed]
        simp [noFault, hrow, hins]
      have hsi : stepSi noFault ({ t with dsRows := t.dsRows ++ [seedRow] }, l) =
          .ok ({ t with dsRows := t.dsRows ++ [seedRow], siTable := true }, l) := rfl
      rw [hseed, exbind_ok, hsi, runCatch_ok]
      refine ⟨⟨bc, hbc, hb1, hb2⟩, ⟨dc, hdc, hd1⟩, ?_, rfl⟩
      simp [hasRow1, seedRow]
    | false =>
      right
      have hseed : stepSeed noFault (t, l) =
          .error (t, l ++ [.warn "Lightweight migration skipped or failed"]) := by
        rw [stepSeed]
        simp [noFault, hrow, hins]
      rw [hseed, exbind_error, runCatch_error]
      refine ⟨⟨⟨bc, hbc, hb1, hb2⟩, ⟨dc, hdc, hd1⟩, hrow, hins⟩, ?_⟩
      simp [hasWarn]

/-- Classification from the displaysettings steps onward. -/
theorem ds_tail_post (t : SchemaDb) (l : List MigLog) (hgb : goodBeer t) :
    MigPost (runCatch (((stepDs noFault (t, l)).bind (stepSeed noFault)).bind
      (stepSi noFault))) := by
  obtain ⟨bc, hbc, hb1, hb2⟩ := hgb
  cases hdt : t.dsTable with
  | none =>
    have hds : stepDs noFault (t, l) = .ok ({ t with dsTable := some migDsCols }, l) := by
      rw [stepDs]
      simp [noFault, hdt]
      decide
    rw [hds, exbind_ok]
    exact seedSi_post _ _ ⟨bc, hbc, hb1, hb2⟩ ⟨migDsCols, rfl, by decide⟩
  | some dc =>
    by_cases hdl : "logo_image_id" ∈ dc
    · have hds : stepDs noFault (t, l) = .ok (t, l) := by
        rw [stepDs]
        simp [noFault, hdt, hdl]
      rw [hds, exbind_ok]
      exact seedSi_post _ _ ⟨bc, hbc, hb1, hb2⟩ ⟨dc, hdt, hdl⟩
    · have hds : stepDs noFault (t, l) =
          .ok ({ t with dsTable := some (dc ++ ["logo_image_id"]) },
            l ++ [.info "Adding logo_image_id column to displaysettings"]) := by
        rw [stepDs]
        simp [noFault, hdt, hdl]
      rw [hds, exbind_ok]
      exact seedSi_post _ _ ⟨bc, hbc, hb1, hb2⟩
        ⟨dc ++ ["logo_image_id"], rfl, by simp⟩

/-- Classification from the beer-column steps onward. -/
theorem beercols_tail_post (t : SchemaDb) (l : List MigLog) (cols : List String)
    (hbt : t.beerTable = some cols) :
    MigPost (runCatch ((((stepBeerCols noFault (t, l)).bind (stepDs noFault)).bind
      (stepSeed noFault)).bind (stepSi noFault))) := by
  by_cases h2 : "image" ∈ cols
  · by_cases h3 : "image_id" ∈ cols
    · have hbcs : stepBeerCols noFault (t, l) = .ok (t, l) := by
        rw [stepBeerCols]
        simp [noFault, hbt, h2, h3, alterImageStep, alterImageIdStep]
      rw [hbcs, exbind_ok]
      exact ds_tail_post _ _ ⟨cols, hbt, h2, h3⟩
    · have hbcs : stepBeerCols noFault (t, l) =
          .ok ({ t with beerTable := some (cols ++ ["image_id"]) },
            l ++ [.info "Adding image_id column to beer"]) := by
        rw [stepBeerCols]
        simp [noFault, hbt, h2, h3, alterImageStep, alterImageIdStep]
      rw [hbcs, exbind_ok]
      exact ds_tail_post _ _ ⟨cols ++ ["image_id"], rfl, by simp [h2], by simp⟩
  · by_cases h3 : "image_id" ∈ cols
    · have hbcs : stepBeerCols noFault (t, l) =
          .ok ({ t with beerTable := some (cols ++ ["image"]) },
            l ++ [.info "Adding image column to beer"]) := by
        rw [stepBeerCols]
        simp [noFault, hbt, h2, h3, alterImageStep, alterImageIdStep]
      rw [hbcs, exbind_ok]
      exact ds_tail_post _ _ ⟨cols ++ ["image"], rfl, by simp, by simp [h3]⟩
    · have hbcs : stepBeerCols noFault (t, l) =
          .ok ({ t with beerTable := some (cols ++ ["image"] ++ ["image_id"]) },
            l ++ [.info "Adding image column to beer",
              .info "Adding image_id column to beer"]) := by
        rw [stepBeerCols]
        simp [noFault, hbt, h2, h3, alterImageStep, alterImageIdStep]
      rw [hbcs, exbind_ok]
      exact ds_tail_post _ _ ⟨cols ++ ["image"] ++ ["image_id"], rfl, by simp, by simp⟩

/-- Every fault-free migration run lands in one of the two stable
shapes. -/
theorem migrate_nf_post (s : SchemaDb) :
    MigPost (lightweightMigrate noFault s) := by
  rw [lightweightMigrate, migrateBody]
  cases hbt : s.beerTable with
  | some cols =>
    have h1 : stepTables noFault (s, []) = .ok (s, []) := by
      rw [stepTables]
      simp [noFault, hbt]
    rw [h1, exbind_ok]
    exact beercols_tail_post s [] cols hbt
  | none =>
    have h1 : stepTables noFault (s, []) =
        .ok (createAllFn s, [.info "beer table missing; running create_all again"]) := by
      rw [stepTables]
      simp [noFault, hbt]
    rw [h1, exbind_ok]
    exact beercols_tail_post _ _ modelBeerCols (by simp [createAllFn, hbt])

/-- A fully migrated state is a fixpoint of the migration, with a clean
log. -/
theorem migrate_nf_fix_ok (s : SchemaDb) (h : StableOk s) :
    lightweightMigrate noFault s = (s, []) := by
  obtain ⟨⟨bc, hbc, hb1, hb2⟩, ⟨dc, hdc, hd1⟩, hrow, hsi⟩ := h
  have h1 : stepTables noFault (s, []) = .ok (s, []) := by
    rw [stepTables]
    simp [noFault, hbc]
  have h2 : stepBeerCols noFault (s, []) = .ok (s, []) := by
    rw [stepBeerCols]
    simp [noFault, hbc, hb1, hb2, alterImageStep, alterImageIdStep]
  have h3 : stepDs noFault (s, []) = .ok (s, []) := by
    rw [stepDs]
    simp [noFault, hdc, hd1]
  have h4 : stepSeed noFault (s, []) = .ok (s, []) := by
    rw [stepSeed]
    simp [noFault, hrow]
  have h5 : stepSi noFault (s, []) = .ok (s, []) := by
    rw [stepSi]
    simp [noFault, setSi_self s hsi]
  rw [lightweightMigrate, migrateBody, h1, exbind_ok, h2, exbind_ok, h3,
    exbind_ok, h4, exbind_ok, h5, runCatch_ok]

/-- A stuck state is also a fixpoint: the run aborts at the seed INSERT
again, logging the same swallowed warning. -/
theorem migrate_nf_fix_err (s : SchemaDb) (h : StableErr s) :
    lightweightMigrate noFault s =
      (s, [.warn "Lightweight migration skipped or failed"]) := by
  obtain ⟨⟨bc, hbc, hb1, hb2⟩, ⟨dc, hdc, hd1⟩, hrow, hins⟩ := h
  have h1 : stepTables noFault (s, []) = .ok (s, []) := by
    rw [stepTables]
    simp [noFault, hbc]
  have h2 : stepBeerCols noFault (s, []) = .ok (s, []) := by
    rw [stepBeerCols]
    simp [noFault, hbc, hb1, hb2, alterImageStep, alterImageIdStep]
  have h3 : stepDs noFault (s, []) = .ok (s, []) := by
    rw [stepDs]
    simp [noFault, hdc, hd1]
  have h4 : stepSeed noFault (s, []) =
      .error (s, [.warn "Lightweight migration skipped or failed"]) := by
    rw [stepSeed]
    simp [noFault, hrow, hins]
  rw [lightweightMigrate, migrateBody, h1, exbind_ok, h2, exbind_ok, h3,
    exbind_ok, h4, exbind_error, runCatch_error]

/-- When the initial table read succeeds and `beer` exists, the first
step group changes nothing. -/
theorem stepTables_skip (f : Fault) (t : SchemaDb) (l : List MigLog)
    (hf : f.readTables1 = false) (cols : List String)
    (hbt : t.beerTable = some cols) :
    stepTables f (t, l) = .ok (t, l) := by
  rw [stepTables]
  simp [hf, hbt]

/-- The guarded `image` ALTER only ever touches the beer table and the
log. -/
theorem alterImageStep_frame (f : Fault) (cols : List String) (m : MigState) :
    (alterImageStep f cols m).1.dsTable = m.1.dsTable ∧
    (alterImageStep f cols m).1.siTable = m.1.siTable ∧
    (alterImageStep f cols m).1.dsRows = m.1.dsRows := by
  rw [alterImageStep]
  repeat' split
  all_goals exact ⟨rfl, rfl, rfl⟩

/-- The guarded `image_id` ALTER only ever touches the beer table and
the log. -/
theorem alterImageIdStep_frame (f : Fault) (cols : List String) (m : MigState) :
    (alterImageIdStep f cols m).1.dsTable = m.1.dsTable ∧
    (alterImageIdStep f cols m).1.siTable = m.1.siTable ∧
    (alterImageIdStep f cols m).1.dsRows = m.1.dsRows := by
  rw [alterImageIdStep]
  repeat' split
  all_goals exact ⟨rfl, rfl, rfl⟩

/-- A failing `image` ALTER is logged as a warning (and swallowed). -/
theorem alterImageStep_warn (f : Fault) (cols : List String) (m : MigState)
    (ha : f.alterImage = true) (hni : "image" ∉ cols) :
    hasWarn (alterImageStep f cols m).2 = true := by
  rw [alterImageStep]
  simp [ha, hni, hasWarn]

/-- The `image_id` ALTER never removes a warning from the log. -/
theorem alterImageIdStep_warnpres (f : Fault) (cols : List String)
    (m : MigState) (h : hasWarn m.2 = true) :
    hasWarn (alterImageIdStep f cols m).2 = true := by
  rw [alterImageIdStep]
  repeat' split
  all_goals simp_all [hasWarn]

/-- The beer-column steps never fail the run (their ALTERs are guarded)
and never touch the displaysettings or storedimage state. -/
theorem stepBeerCols_frame (f : Fault) (m : MigState)
    (hf : f.readBeerCols = false) :
    ∃ t2 l2, stepBeerCols f m = .ok (t2, l2) ∧
      t2.dsTable = m.1.dsTable ∧ t2.siTable = m.1.siTable ∧
      t2.dsRows = m.1.dsRows := by
  obtain ⟨t, l⟩ := m
  rw [stepBeerCols]
  cases hbt : t.beerTable with
  | none => exact ⟨t, l, rfl, rfl, rfl, rfl⟩
  | some cols =>
    refine ⟨(alterImageIdStep f cols (alterImageStep f cols (t, l))).1,
      (alterImageIdStep f cols (alterImageStep f cols (t, l))).2,
      by simp [hf], ?_, ?_, ?_⟩
    · exact ((alterImageIdStep_frame f cols _).1).trans
        ((alterImageStep_frame f cols (t, l)).1)
    · exact ((alterImageIdStep_frame f cols _).2.1).trans
        ((alterImageStep_frame f cols (t, l)).2.1)
    · exact ((alterImageIdStep_frame f cols _).2.2).trans
        ((alterImageStep_frame f cols (t, l)).2.2)

/-- The displaysettings steps never fail the run when their two uncaught
statements succeed; they never touch the beer table, the storedimage
flag or the rows, and they only append to the log. -/
theorem stepDs_frame (f : Fault) (m : MigState)
    (h1 : f.createDs = false) (h2 : f.readDsCols = false) :
    ∃ t2 l2, stepDs f m = .ok (t2, l2) ∧
      t2.beerTable = m.1.beerTable ∧ t2.siTable = m.1.siTable ∧
      t2.dsRows = m.1.dsRows ∧
      (hasWarn m.2 = true → hasWarn l2 = true) := by
  obtain ⟨t, l⟩ := m
  rw [stepDs]
  simp only [h1, h2, Bool.false_eq_true, if_false]
  repeat' split
  all_goals first
    | exact ⟨_, _, rfl, rfl, rfl, rfl, fun h => h⟩
    | exact ⟨_, _, rfl, rfl, rfl, rfl, fun h => by
        simp_all [hasWarn]⟩
    | simp_all

/-- The seed step is skipped when the singleton row already exists. -/
theorem stepSeed_skip (f : Fault) (m : MigState)
    (hf : f.selectRow = false) (hrow : hasRow1 m.1 = true) :
    stepSeed f m = .ok m := by
  obtain ⟨t, l⟩ := m
  rw [stepSeed]
  simp only [hasRow1] at hrow
  simp [hf, hrow, hasRow1]

/-- The uncaught seed INSERT fails under its fault flag and aborts with
a logged warning. -/
theorem stepSeed_insertFault (m : MigState) (hrow : hasRow1 m.1 = false) :
    stepSeed onlyInsertFault m =
      .error (m.1, m.2 ++ [.warn "Lightweight migration skipped or failed"]) := by
  obtain ⟨t, l⟩ := m
  rw [stepSeed]
  simp only [hasRow1] at hrow
  simp [onlyInsertFault, hrow, hasRow1]

/-- The final step marks the storedimage table present. -/
theorem stepSi_ok (f : Fault) (m : MigState) (hf : f.createSi = false) :
    stepSi f m = .ok ({ m.1 with siTable := true }, m.2) := by
  obtain ⟨t, l⟩ := m
  rw [stepSi]
  simp [hf]

/-- C3 (code bug): after a fault-free migration of a fresh database the
`displaysettings` table has NO row at all — the seed INSERT names the
`logo` column, which the table created from the SQLModel metadata lacks,
so the INSERT fails and is swallowed (second conjunct: a warning is
logged).  On a legacy database whose table does have the `logo` column
the seed succeeds, but the title it writes is the mojibake string
`seedTitle`, which differs from the model default declared in
app/models.py (and from the plain-apostrophe title in the spec). -/
theorem c3_seed_row_code_bug :
    (lightweightMigrate noFault emptySchemaDb).1.dsRows = [] ∧
    hasWarn (lightweightMigrate noFault emptySchemaDb).2 = true ∧
    (lightweightMigrate noFault legacySchemaDb).1.dsRows = [seedRow] ∧
    seedRow.title = some seedTitle ∧
    seedTitle ≠ modelDefaultTitle := by
  refine ⟨rfl, rfl, rfl, rfl, ?_⟩
  decide

/-- C2 counterexample: on a fresh database (schema as created by the
model metadata) the first migration run ends with a swallowed error and
seeds nothing, and the second run fails the same seed step again — it
performs no state change (first conjunct) but logs another migration
warning (second conjunct), contradicting the claim that a re-run raises
no error because every step finds its work already done. -/
theorem c2_second_run_warns_counterexample :
    (lightweightMigrate noFault
        (lightweightMigrate noFault emptySchemaDb).1).1 =
      (lightweightMigrate noFault emptySchemaDb).1 ∧
    hasWarn (lightweightMigrate noFault
        (lightweightMigrate noFault emptySchemaDb).1).2 = true := by
  exact ⟨rfl, rfl⟩

/-- No stored image of an earlier state matches a fresh id. -/
theorem find?_images_none (l : List StoredImageRow) (n : Nat)
    (h : l.all (fun i => i.id < n) = true) :
    l.find? (fun i => i.id == n) = none := by
  rw [List.find?_eq_none]
  intro x hx
  have hlt := List.all_eq_true.mp h x hx
  simp only [decide_eq_true_eq] at hlt
  simp only [beq_iff_eq]
  omega

/-- C7: after two successful uploads to the same beer, the beer points
at the image row created by the second upload, whose id is the successor
of the first; the row of the first upload is still present, byte-for-byte
unchanged, and is served by the image fetch endpoint under its own id
(a repoint never deletes or modifies the previous row). -/
theorem c7_two_uploads (db : AppDb) (bid : Nat) (ct1 ct2 : String)
    (d1 d2 : List Nat) (db1 db2 : AppDb) (b1 b2 : BeerRow)
    (hfresh : db.images.all (fun i => i.id < db.nextImageId) = true)
    (h1 : uploadImage db bid ct1 d1 = (db1, .ok b1))
    (h2 : uploadImage db1 bid ct2 d2 = (db2, .ok b2)) :
    b2.image_id = some db1.nextImageId ∧
    db1.nextImageId = db.nextImageId + 1 ∧
    findImage db2 db.nextImageId = some
      { id := db.nextImageId, kind := "beer", ref_id := some bid,
        content_type := ct1, data := d1, created_at := db.clock } ∧
    getImage db2 db.nextImageId = .ok (ct1, d1) := by
  rw [uploadImage] at h1
  by_cases hct1 : (!(startsWith ct1 "image/")) = true
  · rw [if_pos hct1] at h1
    simp at h1
  rw [if_neg hct1] at h1
  by_cases hlen1 : d1.length > 1000000
  · rw [if_pos hlen1] at h1
    simp at h1
  rw [if_neg hlen1] at h1
  cases hfb : findBeer db bid with
  | none =>
    rw [hfb] at h1
    simp at h1
  | some b =>
    rw [hfb] at h1
    have hbid : b.id = bid := by
      have := List.find?_some hfb
      simpa using this
    rw [Prod.ext_iff] at h1
    obtain ⟨hdb1, hb1⟩ := h1
    subst hdb1
    rw [uploadImage] at h2
    by_cases hct2 : (!(startsWith ct2 "image/")) = true
    · rw [if_pos hct2] at h2
      simp at h2
    rw [if_neg hct2] at h2
    by_cases hlen2 : d2.length > 1000000
    · rw [if_pos hlen2] at h2
      simp at h2
    rw [if_neg hlen2] at h2
    cases hfb2 : findBeer _ bid with
    | none =>
      rw [hfb2] at h2
      simp at h2
    | some b3 =>
      rw [hfb2] at h2
      rw [Prod.ext_iff] at h2
      obtain ⟨hdb2, hb2⟩ := h2
      subst hdb2
      simp only [Except.ok.injEq] at hb2
      refine ⟨?_, rfl, ?_, ?_⟩
      · rw [hb2.symm]
      · rw [findImage]
        have hnone := find?_images_none db.images db.nextImageId hfresh
        simp [List.find?_append, hnone, hbid]
      · rw [getImage, findImage]
        have hnone := find?_images_none db.images db.nextImageId hfresh
        simp [List.find?_append, hnone]

/-- Witness for C7: two concrete uploads on the sample database; the
first image is still fetchable with its original bytes, and the beer
points at the second image. -/
theorem c7_two_uploads_witness :
    getImage exDbUp2 1 = .ok ("image/png", [9]) ∧
    exBeerUp2.image_id = some exDbUp1.nextImageId := by
  have h := c7_two_uploads exDb 1 "image/png" "image/jpeg" [9] [8]
    exDbUp1 exDbUp2 exBeerUp1 exBeerUp2 rfl rfl rfl
  exact ⟨h.2.2.2, h.1⟩

/-- C2 amended: a second fault-free migration run performs no schema or
data change whatsoever (the state is a fixpoint after one run), and if
the first run logged no migration warning the second run logs nothing at
all.  (The unamended claim fails only in that, on a database whose
displaysettings table cannot accept the seed INSERT, the second run logs
the same swallowed error as the first; no error ever propagates.) -/
theorem c2_migration_idempotent_amended (s : SchemaDb) :
    (lightweightMigrate noFault (lightweightMigrate noFault s).1).1 =
      (lightweightMigrate noFault s).1 ∧
    (hasWarn (lightweightMigrate noFault s).2 = false →
      (lightweightMigrate noFault (lightweightMigrate noFault s).1).2 = []) := by
  rcases migrate_nf_post s with hok | ⟨herr, hwarn⟩
  · rw [migrate_nf_fix_ok _ hok]
    exact ⟨rfl, fun _ => rfl⟩
  · rw [migrate_nf_fix_err _ herr]
    exact ⟨rfl, fun hw => absurd hwarn (by simp [hw])⟩

/-- Witness for the amended C2: on a legacy database whose first run is
clean, the second run changes nothing and logs nothing. -/
theorem c2_migration_idempotent_amended_witness :
    (lightweightMigrate noFault
        (lightweightMigrate noFault legacySchemaDb).1).1 =
      (lightweightMigrate noFault legacySchemaDb).1 ∧
    (lightweightMigrate noFault
        (lightweightMigrate noFault legacySchemaDb).1).2 = [] :=
  ⟨(c2_migration_idempotent_amended legacySchemaDb).1,
   (c2_migration_idempotent_amended legacySchemaDb).2 rfl⟩

/-- C4 counterexample: inject a storage error into the ALTER TABLE that
adds the `image` column, on a legacy database missing all the newer
columns.  The failed step is logged (first conjunct) and the column is
indeed missing afterwards (second), yet the remaining steps all still
ran: `image_id` was added, the settings row was seeded and the
`storedimage` table was created — contradicting the claim that a failing
step aborts the remaining steps of the run. -/
theorem c4_column_add_failure_continues_counterexample :
    hasWarn (lightweightMigrate onlyAlterImageFault alterFaultDb).2 = true ∧
    (lightweightMigrate onlyAlterImageFault alterFaultDb).1.beerTable =
      some ["id", "tap_number", "name", "style", "abv", "og", "sg", "ibu",
        "ebc", "image_id"] ∧
    hasRow1 (lightweightMigrate onlyAlterImageFault alterFaultDb).1 = true ∧
    (lightweightMigrate onlyAlterImageFault alterFaultDb).1.siTable = true ∧
    hasRow1 alterFaultDb = false ∧
    alterFaultDb.siTable = false := by
  exact ⟨rfl, rfl, rfl, rfl, rfl, rfl⟩

/-- C4 amended: the failure semantics split by step kind.  (1) A storage
error in an UNGUARDED statement — here the seed INSERT — logs a warning
and aborts the remaining steps: the storedimage creation does not run
and no row is seeded.  (2) A storage error in one of the GUARDED
column-add statements is logged as a warning but the remaining steps
still run to the end (the final storedimage step executes).  In both
cases the error is swallowed and never propagates (the routine is the
total function `lightweightMigrate`). -/
theorem c4_failure_semantics_amended :
    (∀ (s : SchemaDb) (cols : List String), s.beerTable = some cols →
      hasRow1 s = false →
      (lightweightMigrate onlyInsertFault s).1.siTable = s.siTable ∧
      hasRow1 (lightweightMigrate onlyInsertFault s).1 = false ∧
      hasWarn (lightweightMigrate onlyInsertFault s).2 = true) ∧
    (∀ (s : SchemaDb) (cols : List String), s.beerTable = some cols →
      hasRow1 s = true → "image" ∉ cols →
      (lightweightMigrate onlyAlterImageFault s).1.siTable = true ∧
      hasWarn (lightweightMigrate onlyAlterImageFault s).2 = true) := by
  constructor
  · intro s cols hbt hrow
    have h1 : stepTables onlyInsertFault (s, []) = .ok (s, []) :=
      stepTables_skip onlyInsertFault s [] rfl cols hbt
    obtain ⟨t2, l2, hbc, hd2, hs2, hr2⟩ :=
      stepBeerCols_frame onlyInsertFault (s, []) rfl
    obtain ⟨t3, l3, hds, hbt3, hs3, hr3, hw3⟩ :=
      stepDs_frame onlyInsertFault (t2, l2) rfl rfl
    have hrow3 : hasRow1 t3 = false := by
      rw [hasRow1, hr3]
      rw [hasRow1] at hrow
      show t2.dsRows.any (fun r => r.id == 1) = false
      rw [hr2]
      exact hrow
    have hseed := stepSeed_insertFault (t3, l3) hrow3
    rw [lightweightMigrate, migrateBody, h1, exbind_ok, hbc, exbind_ok, hds,
      exbind_ok, hseed, exbind_error, runCatch_error]
    refine ⟨?_, hrow3, ?_⟩
    · exact hs3.trans hs2
    · simp [hasWarn]
  · intro s cols hbt hrow hni
    have h1 : stepTables onlyAlterImageFault (s, []) = .ok (s, []) :=
      stepTables_skip onlyAlterImageFault s [] rfl cols hbt
    have hbc : stepBeerCols onlyAlterImageFault (s, []) =
        .ok (alterImageIdStep onlyAlterImageFault cols
          (alterImageStep onlyAlterImageFault cols (s, []))) := by
      rw [stepBeerCols]
      simp [hbt, onlyAlterImageFault]
    have hw2 : hasWarn (alterImageIdStep onlyAlterImageFault cols
        (alterImageStep onlyAlterImageFault cols (s, []))).2 = true :=
      alterImageIdStep_warnpres _ _ _
        (alterImageStep_warn _ _ _ rfl hni)
    have hrows2 : (alterImageIdStep onlyAlterImageFault cols
        (alterImageStep onlyAlterImageFault cols (s, []))).1.dsRows = s.dsRows :=
      ((alterImageIdStep_frame _ _ _).2.2).trans
        ((alterImageStep_frame _ _ (s, [])).2.2)
    obtain ⟨t3, l3, hds, hbt3, hs3, hr3, hw3⟩ :=
      stepDs_frame onlyAlterImageFault
        (alterImageIdStep onlyAlterImageFault cols
          (alterImageStep onlyAlterImageFault cols (s, []))) rfl rfl
    have hrow3 : hasRow1 t3 = true := by
      rw [hasRow1, hr3, hrows2]
      rw [hasRow1] at hrow
      exact hrow
    have hseed := stepSeed_skip onlyAlterImageFault (t3, l3) rfl hrow3
    have hsi := stepSi_ok onlyAlterImageFault (t3, l3) rfl
    rw [lightweightMigrate, migrateBody, h1, exbind_ok, hbc, exbind_ok, hds,
      exbind_ok, hseed, exbind_ok, hsi, runCatch_ok]
    exact ⟨rfl, hw3 hw2⟩

/-- Witness for the amended C4: the seed-INSERT fault aborts before the
storedimage step on a legacy database, while the image-ALTER fault lets
the run finish (storedimage gets created) with the failure logged. -/
theorem c4_failure_semantics_amended_witness :
    (lightweightMigrate onlyInsertFault alterFaultDb).1.siTable =
      alterFaultDb.siTable ∧
    hasWarn (lightweightMigrate onlyInsertFault alterFaultDb).2 = true ∧
    (lightweightMigrate onlyAlterImageFault rowSchemaDb).1.siTable = true ∧
    hasWarn (lightweightMigrate onlyAlterImageFault rowSchemaDb).2 = true := by
  have h1 := c4_failure_semantics_amended.1 alterFaultDb _ rfl rfl
  have h2 := c4_failure_semantics_amended.2 rowSchemaDb _ rfl rfl (by decide)
  exact ⟨h1.1, h1.2.2, h2.1, h2.2⟩

end OpenTap
